import Mathlib

/-!
Verification of the asset pipeline core of the `trunk` bundler
(`src/pipelines/mod.rs`): the `AssetFile` utility (canonical path
resolution and content-addressed copying), the `TrunkAsset::from_html`
dispatcher, the `PipelineStage` enum, and the id-correlation selectors.

The code is embedded shallowly: filesystem effects are passed in as an
explicit `FS` record, the per-kind constructors (which live in pipeline
submodules) are passed in as a `Ctors` record of fallible functions, and
Rust `u64` arithmetic is `Nat` with explicit reduction modulo `2 ^ 64`.
-/

namespace Trunk

/-! ### The content digest

`AssetFile::copy` hashes file bytes with `seahash::hash`.  The crate is a
dependency, not part of this repository; per the spec it is a "fast
non-cryptographic 64-bit digest over the bytes".  We embed the SeaHash
algorithm itself (its diffusion rounds and tail handling), with bytes as
`Nat`s and wrap-around made explicit. -/

/-- Truncation to 64 bits, modelling Rust `u64` wrapping arithmetic. -/
def u64 (n : Nat) : Nat := n % (2 ^ 64)

/-- Modelled from the spec: SeaHash's diffusion function (multiply, shift-xor,
multiply, all on `u64`). -/
def diffuse (x : Nat) : Nat :=
  let x1 := u64 (x * 0x6eed0e9da4d94a4f)
  let a := x1 >>> 32
  let b := x1 >>> 60
  let x2 := x1 ^^^ (a >>> b)
  u64 (x2 * 0x6eed0e9da4d94a4f)

/-- Little-endian read of up to eight bytes into one integer. -/
def readInt (bs : List Nat) : Nat :=
  bs.foldr (fun b acc => acc * 256 + b % 256) 0

/-- The four-lane SeaHash state. -/
structure SeaState where
  a : Nat
  b : Nat
  c : Nat
  d : Nat
deriving DecidableEq

/-- One 32-byte SeaHash block: one 64-bit word absorbed and diffused per lane. -/
def seaBlock (s : SeaState) (bs : List Nat) : SeaState :=
  { a := diffuse (s.a ^^^ readInt (bs.take 8)),
    b := diffuse (s.b ^^^ readInt ((bs.drop 8).take 8)),
    c := diffuse (s.c ^^^ readInt ((bs.drop 16).take 8)),
    d := diffuse (s.d ^^^ readInt ((bs.drop 24).take 8)) }

/-- Modelled from the spec: the bulk loop of SeaHash, consuming the byte
stream in 32-byte blocks while at least 32 bytes remain.  The structural
fuel only bounds the iteration count; each iteration consumes 32 bytes, so
a fuel of the byte count is always sufficient. -/
def seaLoopF : Nat → SeaState → List Nat → SeaState × List Nat
  | 0, s, bs => (s, bs)
  | fuel + 1, s, bs =>
    if 32 ≤ bs.length then seaLoopF fuel (seaBlock s bs) (bs.drop 32)
    else (s, bs)

/-- The bulk loop at its sufficient fuel. -/
def seaLoop (s : SeaState) (bs : List Nat) : SeaState × List Nat :=
  seaLoopF bs.length s bs

/-- Modelled from the spec: the SeaHash tail, absorbing the trailing
(fewer than 32) bytes lane by lane. -/
def seaTail (s : SeaState) (bs : List Nat) : SeaState :=
  let n := bs.length
  if n = 0 then s
  else if n ≤ 8 then
    { s with a := diffuse (s.a ^^^ readInt bs) }
  else if n ≤ 16 then
    { s with
        a := diffuse (s.a ^^^ readInt (bs.take 8)),
        b := diffuse (s.b ^^^ readInt (bs.drop 8)) }
  else if n ≤ 24 then
    { s with
        a := diffuse (s.a ^^^ readInt (bs.take 8)),
        b := diffuse (s.b ^^^ readInt ((bs.drop 8).take 8)),
        c := diffuse (s.c ^^^ readInt (bs.drop 16)) }
  else
    { a := diffuse (s.a ^^^ readInt (bs.take 8)),
      b := diffuse (s.b ^^^ readInt ((bs.drop 8).take 8)),
      c := diffuse (s.c ^^^ readInt ((bs.drop 16).take 8)),
      d := diffuse (s.d ^^^ readInt (bs.drop 24)) }

/-- Modelled from the spec: SeaHash finalization folds the four lanes and the
total length into one diffused 64-bit word. -/
def seaFinalize (s : SeaState) (total : Nat) : Nat :=
  diffuse (((s.a ^^^ s.b) ^^^ (s.c ^^^ s.d)) ^^^ u64 total)

/-- Modelled from the spec: the digest of a byte stream, SeaHash with the
crate's default seeds. -/
def seahash (bs : List Nat) : Nat :=
  let p := seaLoop ⟨0x16f11fe89b0d677c, 0xb480a793d8e6c86c,
                    0x6fe2e5aaf078ebc9, 0x14f994a4c5259381⟩ bs
  seaFinalize (seaTail p.1 p.2) bs.length

/-- Lowercase hexadecimal rendering of a natural number, as Rust's
format specifier x produces it (minimal digits, "0" for zero). -/
def hexStr (n : Nat) : String := String.mk (Nat.toDigits 16 n)

theorem diffuse_lt (x : Nat) : diffuse x < 2 ^ 64 := by
  unfold diffuse u64
  exact Nat.mod_lt _ (by norm_num)

theorem seahash_lt (bs : List Nat) : seahash bs < 2 ^ 64 := by
  unfold seahash seaFinalize
  exact diffuse_lt _

/-! ### Paths and the filesystem

Paths are strings; the final-component helpers mirror Rust's
`Path::file_name` / `file_stem` / `extension` (the split at the last dot,
with a sole leading dot not counting as a separator).  Filesystem effects
of the pipeline (`fs::canonicalize`, `path_exists`, `fs::read`,
`fs::write`) are a record of explicit functions. -/

/-- Splitting a character list at every occurrence of a separator, the
char-level counterpart of string splitting. -/
def splitOnChar (sep : Char) : List Char → List (List Char)
  | [] => [[]]
  | c :: rest =>
    match splitOnChar sep rest with
    | [] => [[c]]
    | g :: gs => if c = sep then [] :: g :: gs else (c :: g) :: gs

/-- Rust `Path::is_absolute` on unix: the path starts with the separator. -/
def isAbsolute (p : String) : Bool :=
  match p.data with
  | [] => false
  | c :: _ => c == '/'

/-- Rust `Path::join` for the non-absolute case used by `AssetFile::new`. -/
def pathJoin (dir p : String) : String := dir ++ "/" ++ p

/-- Rust `Path::file_name`: the final slash-separated component, none for a
root path or a path ending in a parent-directory component. -/
def fileNameOf (p : String) : Option String :=
  match (((splitOnChar '/' p.data).map String.mk).filter
      (fun c => c != "")).getLast? with
  | none => none
  | some c => if c = ".." then none else some c

/-- Rust std's split of a file name at its last dot: a sole leading dot is
not a separator; the result is (stem-part, extension-part). -/
def rsplitFileAtDot (file : String) : Option String × Option String :=
  if file = ".." then (some file, none)
  else
    let parts := splitOnChar '.' file.data
    match parts.getLast? with
    | none => (none, none)
    | some afterDot =>
      if parts.length = 1 then (none, some (String.mk afterDot))
      else
        let before := List.intercalate ['.'] parts.dropLast
        if before = [] then (some file, none)
        else (some (String.mk before), some (String.mk afterDot))

/-- Rust `Path::file_stem`: the part of the file name before its extension. -/
def fileStemOf (p : String) : Option String :=
  (fileNameOf p).bind (fun f => ((rsplitFileAtDot f).1).or (rsplitFileAtDot f).2)

/-- Rust `Path::extension`: the part of the file name after the last dot,
absent when there is no dot (or only a leading one). -/
def extensionOf (p : String) : Option String :=
  (fileNameOf p).bind (fun f =>
    match rsplitFileAtDot f with
    | (some _, afterDot) => afterDot
    | (none, _) => none)

/-- The filesystem as seen by the pipeline: canonicalization (`none` models a
resolution failure), existence, whole-file reads (`none` models an I/O
failure), and whether a write succeeds. -/
structure FS where
  canonicalize : String → Option String
  pathExists : String → Bool
  readFile : String → Option (List Nat)
  writeOk : String → Bool

/-! ### AssetFile -/

/-- An asset file to be processed by some build pipeline
(`AssetFile` in `src/pipelines/mod.rs`): the canonicalized path, the file
name, the file stem, and the optional extension. -/
structure AssetFile where
  path : String
  file_name : String
  file_stem : String
  ext : Option String
deriving DecidableEq

/-- Errors of `AssetFile::new`, mirroring the four bail-out points of the
constructor. -/
inductive AssetError where
  | canonicalize (path : String)
  | notExists (path : String)
  | noFileName (path : String)
  | noFileStem (path : String)
deriving DecidableEq

/-- Embedding of `AssetFile::new`: join a relative path onto the base
directory, canonicalize (failing on resolution errors), require existence,
then extract file name and stem (each a bail-out when absent); the
extension is recorded optionally, with no bail-out. -/
def AssetFile.new (fs : FS) (rel_dir : String) (path0 : String) :
    Except AssetError AssetFile :=
  let joined := if isAbsolute path0 then path0 else pathJoin rel_dir path0
  match fs.canonicalize joined with
  | none => .error (.canonicalize joined)
  | some path =>
    if fs.pathExists path then
      match fileNameOf path with
      | none => .error (.noFileName path)
      | some file_name =>
        match fileStemOf path with
        | none => .error (.noFileStem path)
        | some file_stem =>
          .ok { path := path, file_name := file_name,
                file_stem := file_stem, ext := extensionOf path }
    else .error (.notExists path)

/-- Embedding of `AssetFile::copy`: read the file's bytes (an I/O failure is
an error); with hashing the destination name is the stem, a dash, the hex
digest of the bytes and a dot plus the extension (empty when absent),
otherwise the original file name; write the bytes under that name into the
target directory and return the name. -/
def AssetFile.copy (fs : FS) (af : AssetFile) (to_dir : String)
    (with_hash : Bool) : Except String String :=
  match fs.readFile af.path with
  | none => .error ("error reading file for copying " ++ af.path)
  | some bytes =>
    let file_name :=
      if with_hash then
        af.file_stem ++ "-" ++ hexStr (seahash bytes) ++ "." ++ af.ext.getD ""
      else af.file_name
    let file_path := pathJoin to_dir file_name
    if fs.writeOk file_path then .ok file_name
    else .error ("error copying file " ++ af.path ++ " to " ++ file_path)

/-- Embedding of `AssetFile::read_to_string`; content decoding is abstracted
into the read itself. -/
def AssetFile.read_to_string (fs : FS) (af : AssetFile) :
    Except String (List Nat) :=
  match fs.readFile af.path with
  | none => .error ("error reading file " ++ af.path ++ " to string")
  | some bytes => .ok bytes

/-! ### The dispatcher

`TrunkAsset::from_html` turns one scanned declaration into one asset
variant.  The per-kind constructors (`Css::new` and friends) live in
pipeline submodules that are not part of this file's source, so they are
passed in as a record of fallible validation functions; the dispatch logic
itself — the `rel` lookup and the kind-key match — is embedded verbatim. -/

/-- The attribute constant `ATTR_REL`. -/
def ATTR_REL : String := "rel"

/-- The correlation attribute constant `TRUNK_ID`. -/
def TRUNK_ID : String := "data-trunk-id"

/-- A mapping of all attrs associated with a specific link element, as an
association list. -/
abbrev Attrs := List (String × String)

/-- HashMap-style lookup on an attribute map. -/
def Attrs.get? (attrs : Attrs) (key : String) : Option String :=
  match attrs with
  | [] => none
  | (k, v) :: rest => if k = key then some v else Attrs.get? rest key

/-- A reference to a trunk asset (`TrunkAssetReference`). -/
inductive TrunkAssetReference where
  | link (attrs : Attrs)
  | script (attrs : Attrs)

/-- The nine asset variants of the `TrunkAsset` union, with their
kind-specific configuration abstracted away. -/
inductive TrunkAsset where
  | css
  | sass
  | tailwindCss
  | js
  | icon
  | inline
  | copyFile
  | copyDir
  | rustApp
deriving DecidableEq

/-- Modelled from the spec: the kind-key constant `Sass::TYPE_SASS` of the
absent sass submodule; the spec fixes the recognized keys. -/
def TYPE_SASS : String := "sass"

/-- Modelled from the spec: the kind-key constant `Sass::TYPE_SCSS`. -/
def TYPE_SCSS : String := "scss"

/-- Modelled from the spec: the kind-key constant `Icon::TYPE_ICON`. -/
def TYPE_ICON : String := "icon"

/-- Modelled from the spec: the kind-key constant `Inline::TYPE_INLINE`. -/
def TYPE_INLINE : String := "inline"

/-- Modelled from the spec: the kind-key constant `Css::TYPE_CSS`. -/
def TYPE_CSS : String := "css"

/-- Modelled from the spec: the kind-key constant `CopyFile::TYPE_COPY_FILE`. -/
def TYPE_COPY_FILE : String := "copy-file"

/-- Modelled from the spec: the kind-key constant `CopyDir::TYPE_COPY_DIR`. -/
def TYPE_COPY_DIR : String := "copy-dir"

/-- Modelled from the spec: the kind-key constant `RustApp::TYPE_RUST_APP`. -/
def TYPE_RUST_APP : String := "rust-app"

/-- Modelled from the spec: the kind-key constant
`TailwindCss::TYPE_TAILWIND_CSS`. -/
def TYPE_TAILWIND_CSS : String := "tailwind-css"

/-- The full recognized key set of the dispatch table. -/
def recognizedKeys : List String :=
  [TYPE_CSS, TYPE_SCSS, TYPE_SASS, TYPE_ICON, TYPE_INLINE,
   TYPE_COPY_FILE, TYPE_COPY_DIR, TYPE_RUST_APP, TYPE_TAILWIND_CSS]

/-- Modelled from the spec: the per-kind asynchronous constructors
(`Css::new`, `Sass::new`, ...) live in submodules not present here; each
may fail while validating its declaration, which is all the dispatcher
depends on. -/
structure Ctors where
  cssNew : Attrs → Nat → Except String Unit
  sassNew : Attrs → Nat → Except String Unit
  tailwindNew : Attrs → Nat → Except String Unit
  jsNew : Attrs → Nat → Except String Unit
  iconNew : Attrs → Nat → Except String Unit
  inlineNew : Attrs → Nat → Except String Unit
  copyFileNew : Attrs → Nat → Except String Unit
  copyDirNew : Attrs → Nat → Except String Unit
  rustAppNew : Attrs → Nat → Except String Unit

/-- Errors of `TrunkAsset::from_html`: the missing-`rel` context error, the
unknown-kind bail, or a failure propagated from a variant constructor. -/
inductive DispatchError where
  | missingRel
  | unknownKind (rel : String)
  | ctor (msg : String)
deriving DecidableEq

/-- The message carried by each dispatch error, as formatted by the code. -/
def DispatchError.message : DispatchError → String
  | .missingRel =>
      "all <link data-trunk .../> elements must have a `rel` attribute " ++
      "indicating the asset type"
  | .unknownKind rel =>
      "unknown <link data-trunk .../> attr value `rel=\"" ++ rel ++
      "\"`; please ensure the value is lowercase and is a supported asset type"
  | .ctor msg => msg

/-- Wrapping of one variant constructor's result into the dispatch result. -/
def liftNew (kind : TrunkAsset) (r : Except String Unit) :
    Except DispatchError TrunkAsset :=
  match r with
  | .ok _ => .ok kind
  | .error msg => .error (.ctor msg)

/-- Embedding of `TrunkAsset::from_html`: a link reference requires a `rel`
attribute and is matched, case-sensitively and in the code's arm order,
against the kind keys; an unmatched value is the unknown-kind error.  A
script reference unconditionally constructs the JS variant. -/
def TrunkAsset.from_html (ct : Ctors) (reference : TrunkAssetReference)
    (id : Nat) : Except DispatchError TrunkAsset :=
  match reference with
  | .link attrs =>
    match Attrs.get? attrs ATTR_REL with
    | none => .error .missingRel
    | some rel =>
      if rel = TYPE_SASS ∨ rel = TYPE_SCSS then liftNew .sass (ct.sassNew attrs id)
      else if rel = TYPE_ICON then liftNew .icon (ct.iconNew attrs id)
      else if rel = TYPE_INLINE then liftNew .inline (ct.inlineNew attrs id)
      else if rel = TYPE_CSS then liftNew .css (ct.cssNew attrs id)
      else if rel = TYPE_COPY_FILE then liftNew .copyFile (ct.copyFileNew attrs id)
      else if rel = TYPE_COPY_DIR then liftNew .copyDir (ct.copyDirNew attrs id)
      else if rel = TYPE_RUST_APP then liftNew .rustApp (ct.rustAppNew attrs id)
      else if rel = TYPE_TAILWIND_CSS then liftNew .tailwindCss (ct.tailwindNew attrs id)
      else .error (.unknownKind rel)
  | .script attrs => liftNew .js (ct.jsNew attrs id)

/-! ### PipelineStage -/

/-- A stage in the build process (`PipelineStage`), used to specify when a
hook will run. -/
inductive PipelineStage where
  | preBuild
  | build
  | postBuild
deriving DecidableEq

/-- Modelled from the spec: the serde `Deserialize` derive with
snake-case renaming (the derive's code is generated, not in this source);
each variant deserializes from its lowercase snake-case name and nothing
else is accepted. -/
def PipelineStage.fromString : String → Option PipelineStage
  | "pre_build" => some .preBuild
  | "build" => some .build
  | "post_build" => some .postBuild
  | _ => none

/-! ### Correlation selectors -/

/-- Embedding of `trunk_id_selector`: the CSS selector for selecting a trunk
link by id. -/
def trunk_id_selector (id : Nat) : String :=
  "link[" ++ TRUNK_ID ++ "=\"" ++ Nat.repr id ++ "\"]"

/-- Embedding of `trunk_script_id_selector`: the CSS selector for selecting
a trunk script by id. -/
def trunk_script_id_selector (id : Nat) : String :=
  "script[" ++ TRUNK_ID ++ "=\"" ++ Nat.repr id ++ "\"]"

/-! ### Decimal display is injective

The selectors interpolate the `usize` id via decimal display, i.e.
`Nat.repr`.  We prove the display round-trips through a parser, hence is
injective, by reasoning about the fuelled core of `Nat.toDigits`. -/

/-- Parse a decimal digit string back to a number. -/
def parseDec (cs : List Char) : Nat :=
  cs.foldl (fun acc c => 10 * acc + (c.toNat - 48)) 0

theorem digitChar_toNat (d : Nat) (hd : d < 10) :
    (Nat.digitChar d).toNat = 48 + d := by
  interval_cases d <;> rfl

theorem toDigitsCore_append (b : Nat) :
    ∀ (f n : Nat) (acc : List Char),
      Nat.toDigitsCore b f n acc = Nat.toDigitsCore b f n [] ++ acc := by
  intro f
  induction f with
  | zero => intro n acc; simp [Nat.toDigitsCore]
  | succ f ih =>
    intro n acc
    simp only [Nat.toDigitsCore]
    by_cases h : n / b = 0
    · simp [h]
    · simp only [h, if_false]
      rw [ih (n / b) (Nat.digitChar (n % b) :: acc),
        ih (n / b) [Nat.digitChar (n % b)]]
      simp

theorem toDigitsCore_fuel (b : Nat) (hb : 2 ≤ b) :
    ∀ (f f' n : Nat) (acc : List Char), n < f → n < f' →
      Nat.toDigitsCore b f n acc = Nat.toDigitsCore b f' n acc := by
  intro f
  induction f with
  | zero => intro f' n acc hf; omega
  | succ f ih =>
    intro f' n acc hf hf'
    cases f' with
    | zero => omega
    | succ f' =>
      simp only [Nat.toDigitsCore]
      by_cases h : n / b = 0
      · simp [h]
      · simp only [h, if_false]
        have hn : 0 < n := by
          by_contra hc
          have : n = 0 := by omega
          subst this
          simp at h
        have hdiv : n / b < n := Nat.div_lt_self hn (by omega)
        exact ih f' (n / b) (Nat.digitChar (n % b) :: acc)
          (by omega) (by omega)

theorem parseDec_append_singleton (cs : List Char) (c : Char) :
    parseDec (cs ++ [c]) = 10 * parseDec cs + (c.toNat - 48) := by
  simp [parseDec, List.foldl_append]

theorem parseDec_toDigits (n : Nat) :
    parseDec (Nat.toDigits 10 n) = n := by
  induction n using Nat.strong_induction_on with
  | _ n ih =>
    unfold Nat.toDigits
    simp only [Nat.toDigitsCore]
    by_cases h : n / 10 = 0
    · have hn : n < 10 := by omega
      simp only [h, if_true]
      have : n % 10 = n := Nat.mod_eq_of_lt hn
      simp [parseDec, this, digitChar_toNat n hn]
    · simp only [h, if_false]
      have hn : 0 < n := by
        by_contra hc
        have : n = 0 := by omega
        subst this
        simp at h
      have hdiv : n / 10 < n := Nat.div_lt_self hn (by omega)
      rw [toDigitsCore_append 10 n (n / 10) [Nat.digitChar (n % 10)]]
      rw [toDigitsCore_fuel 10 (by omega) n (n / 10 + 1) (n / 10) []
        (by omega) (by omega)]
      rw [show Nat.toDigitsCore 10 (n / 10 + 1) (n / 10) [] =
        Nat.toDigits 10 (n / 10) from rfl]
      rw [parseDec_append_singleton]
      rw [ih (n / 10) hdiv]
      rw [digitChar_toNat (n % 10) (Nat.mod_lt n (by omega))]
      omega

theorem repr_inj {m n : Nat} (h : Nat.repr m = Nat.repr n) : m = n := by
  have hd : Nat.toDigits 10 m = Nat.toDigits 10 n := by
    have h2 := congrArg String.data h
    simpa [Nat.repr, List.asString] using h2
  calc m = parseDec (Nat.toDigits 10 m) := (parseDec_toDigits m).symm
    _ = parseDec (Nat.toDigits 10 n) := by rw [hd]
    _ = n := parseDec_toDigits n

theorem wrap_repr_inj (p s : String) {m n : Nat}
    (h : p ++ Nat.repr m ++ s = p ++ Nat.repr n ++ s) : m = n := by
  apply repr_inj
  have hd := congrArg String.data h
  simp only [String.data_append] at hd
  have h1 := List.append_cancel_right hd
  have h2 := List.append_cancel_left h1
  exact String.ext h2


/-- C5: with a `rel` value present, dispatch selects exactly the one variant
the recognized key names — css, scss/sass, icon, inline, copy-file,
copy-dir, rust-app, tailwind-css — and any value outside the recognized set
fails with the unknown-asset-kind error, whose message names the offending
value. -/
theorem C5_dispatch_table
    (ct : Ctors) (attrs : Attrs) (id : Nat) (rel : String)
    (h : Attrs.get? attrs ATTR_REL = some rel) :
    (rel = TYPE_CSS →
      TrunkAsset.from_html ct (.link attrs) id =
        liftNew .css (ct.cssNew attrs id)) ∧
    ((rel = TYPE_SCSS ∨ rel = TYPE_SASS) →
      TrunkAsset.from_html ct (.link attrs) id =
        liftNew .sass (ct.sassNew attrs id)) ∧
    (rel = TYPE_ICON →
      TrunkAsset.from_html ct (.link attrs) id =
        liftNew .icon (ct.iconNew attrs id)) ∧
    (rel = TYPE_INLINE →
      TrunkAsset.from_html ct (.link attrs) id =
        liftNew .inline (ct.inlineNew attrs id)) ∧
    (rel = TYPE_COPY_FILE →
      TrunkAsset.from_html ct (.link attrs) id =
        liftNew .copyFile (ct.copyFileNew attrs id)) ∧
    (rel = TYPE_COPY_DIR →
      TrunkAsset.from_html ct (.link attrs) id =
        liftNew .copyDir (ct.copyDirNew attrs id)) ∧
    (rel = TYPE_RUST_APP →
      TrunkAsset.from_html ct (.link attrs) id =
        liftNew .rustApp (ct.rustAppNew attrs id)) ∧
    (rel = TYPE_TAILWIND_CSS →
      TrunkAsset.from_html ct (.link attrs) id =
        liftNew .tailwindCss (ct.tailwindNew attrs id)) ∧
    (rel ∉ recognizedKeys →
      TrunkAsset.from_html ct (.link attrs) id =
          .error (.unknownKind rel) ∧
        (DispatchError.unknownKind rel).message =
          "unknown <link data-trunk .../> attr value `rel=\"" ++ rel ++
            "\"`; please ensure the value is lowercase and is a supported asset type") := by
  refine ⟨?_, ?_, ?_, ?_, ?_, ?_, ?_, ?_, ?_⟩
  · intro hrel
    subst hrel
    simp [TrunkAsset.from_html, h, TYPE_CSS, TYPE_SASS, TYPE_SCSS, TYPE_ICON,
      TYPE_INLINE]
  · intro hrel
    rcases hrel with hrel | hrel <;> subst hrel <;>
      simp [TrunkAsset.from_html, h, TYPE_SASS, TYPE_SCSS]
  · intro hrel
    subst hrel
    simp [TrunkAsset.from_html, h, TYPE_SASS, TYPE_SCSS, TYPE_ICON]
  · intro hrel
    subst hrel
    simp [TrunkAsset.from_html, h, TYPE_SASS, TYPE_SCSS, TYPE_ICON,
      TYPE_INLINE]
  · intro hrel
    subst hrel
    simp [TrunkAsset.from_html, h, TYPE_SASS, TYPE_SCSS, TYPE_ICON,
      TYPE_INLINE, TYPE_CSS, TYPE_COPY_FILE]
  · intro hrel
    subst hrel
    simp [TrunkAsset.from_html, h, TYPE_SASS, TYPE_SCSS, TYPE_ICON,
      TYPE_INLINE, TYPE_CSS, TYPE_COPY_FILE, TYPE_COPY_DIR]
  · intro hrel
    subst hrel
    simp [TrunkAsset.from_html, h, TYPE_SASS, TYPE_SCSS, TYPE_ICON,
      TYPE_INLINE, TYPE_CSS, TYPE_COPY_FILE, TYPE_COPY_DIR, TYPE_RUST_APP]
  · intro hrel
    subst hrel
    simp [TrunkAsset.from_html, h, TYPE_SASS, TYPE_SCSS, TYPE_ICON,
      TYPE_INLINE, TYPE_CSS, TYPE_COPY_FILE, TYPE_COPY_DIR, TYPE_RUST_APP,
      TYPE_TAILWIND_CSS]
  · intro hne
    simp only [recognizedKeys, TYPE_CSS, TYPE_SCSS, TYPE_SASS, TYPE_ICON,
      TYPE_INLINE, TYPE_COPY_FILE, TYPE_COPY_DIR, TYPE_RUST_APP,
      TYPE_TAILWIND_CSS, List.mem_cons, List.not_mem_nil, or_false,
      not_or] at hne
    obtain ⟨n1, n2, n3, n4, n5, n6, n7, n8, n9⟩ := hne
    refine ⟨?_, rfl⟩
    simp [TrunkAsset.from_html, h, TYPE_CSS, TYPE_SCSS, TYPE_SASS, TYPE_ICON,
      TYPE_INLINE, TYPE_COPY_FILE, TYPE_COPY_DIR, TYPE_RUST_APP,
      TYPE_TAILWIND_CSS, n1, n2, n3, n4, n5, n6, n7, n8, n9]

/-- C5 witness: the unrecognized value "unknown-kind" is dispatched to the
unknown-kind error. -/
theorem C5_dispatch_table_witness :
    TrunkAsset.from_html
        ⟨fun _ _ => .ok (), fun _ _ => .ok (), fun _ _ => .ok (),
         fun _ _ => .ok (), fun _ _ => .ok (), fun _ _ => .ok (),
         fun _ _ => .ok (), fun _ _ => .ok (), fun _ _ => .ok ()⟩
        (.link [("rel", "unknown-kind")]) 0 =
      .error (.unknownKind "unknown-kind") :=
  ((C5_dispatch_table
      ⟨fun _ _ => .ok (), fun _ _ => .ok (), fun _ _ => .ok (),
       fun _ _ => .ok (), fun _ _ => .ok (), fun _ _ => .ok (),
       fun _ _ => .ok (), fun _ _ => .ok (), fun _ _ => .ok ()⟩
      [("rel", "unknown-kind")] 0 "unknown-kind"
      rfl).2.2.2.2.2.2.2.2 (by decide)).1

/-- C6: a link declaration with no `rel` attribute fails with the
missing-required-attribute error, whatever the variant constructors would
do — no variant is constructed. -/
theorem C6_missing_rel (ct : Ctors) (attrs : Attrs) (id : Nat)
    (h : Attrs.get? attrs ATTR_REL = none) :
    TrunkAsset.from_html ct (.link attrs) id = .error .missingRel := by
  simp [TrunkAsset.from_html, h]

/-- C6 witness: an attribute map carrying only href. -/
theorem C6_missing_rel_witness :
    TrunkAsset.from_html
        ⟨fun _ _ => .ok (), fun _ _ => .ok (), fun _ _ => .ok (),
         fun _ _ => .ok (), fun _ _ => .ok (), fun _ _ => .ok (),
         fun _ _ => .ok (), fun _ _ => .ok (), fun _ _ => .ok ()⟩
        (.link [("href", "style.css")]) 0 =
      .error .missingRel :=
  C6_missing_rel
    ⟨fun _ _ => .ok (), fun _ _ => .ok (), fun _ _ => .ok (),
     fun _ _ => .ok (), fun _ _ => .ok (), fun _ _ => .ok (),
     fun _ _ => .ok (), fun _ _ => .ok (), fun _ _ => .ok ()⟩
    [("href", "style.css")] 0 rfl

/-- C7: a script reference always dispatches to the JS variant, for every
attribute map (whatever `rel` does or does not contain): the result is the
JS constructor's outcome alone and no kind-key lookup takes place. -/
theorem C7_script_always_js (ct : Ctors) (attrs : Attrs) (id : Nat) :
    TrunkAsset.from_html ct (.script attrs) id =
      liftNew .js (ct.jsNew attrs id) := rfl

/-- C8: the correlation-selector construction is injective in the id, for
the link selector and for the script selector alike: distinct ids always
give distinct selectors. -/
theorem C8_selector_injective (i j : Nat) (h : i ≠ j) :
    trunk_id_selector i ≠ trunk_id_selector j ∧
    trunk_script_id_selector i ≠ trunk_script_id_selector j := by
  constructor
  · intro he
    exact h (wrap_repr_inj ("link[" ++ TRUNK_ID ++ "=\"") "\"]" he)
  · intro he
    exact h (wrap_repr_inj ("script[" ++ TRUNK_ID ++ "=\"") "\"]" he)

/-- C8 witness: ids 0 and 1. -/
theorem C8_selector_injective_witness :
    trunk_id_selector 0 ≠ trunk_id_selector 1 ∧
    trunk_script_id_selector 0 ≠ trunk_script_id_selector 1 :=
  C8_selector_injective 0 1 (by decide)

/-- C9: `PipelineStage` has exactly the three stages, and its wire form is
lowercase snake case: "pre_build", "build" and "post_build" deserialize to
the three stages respectively. -/
theorem C9_pipeline_stage :
    PipelineStage.fromString "pre_build" = some .preBuild ∧
    PipelineStage.fromString "build" = some .build ∧
    PipelineStage.fromString "post_build" = some .postBuild ∧
    ∀ s : PipelineStage, s = .preBuild ∨ s = .build ∨ s = .postBuild := by
  refine ⟨rfl, rfl, rfl, ?_⟩
  intro s
  cases s
  · exact Or.inl rfl
  · exact Or.inr (Or.inl rfl)
  · exact Or.inr (Or.inr rfl)

/-- C10: for every pair of ids the link correlation selector and the script
correlation selector are distinct strings (they target different element
names), so a script finalizer lookup can never match a link placeholder and
vice versa. -/
theorem C10_link_script_selectors_distinct (i j : Nat) :
    trunk_id_selector i ≠ trunk_script_id_selector j := by
  intro h
  have h1 : (trunk_id_selector i).data.head? = some 'l' := rfl
  have h2 : (trunk_script_id_selector j).data.head? = some 's' := rfl
  rw [h] at h1
  rw [h2] at h1
  exact absurd h1 (by decide)

end Trunk


/-! ### The claims -/

namespace Trunk

/-- C1: the spec (and the constructor's own doc comment, which promises to
validate "that the file has an extension") says `AssetFile::new` must fail
with a missing-extension error whenever the canonical target lacks an
extension.  Evaluating the embedded constructor on an existing canonical
extension-less path shows construction succeeding with `ext := none`: the
code records the extension optionally and never bails on its absence, so
the code diverges from claim and documentation. -/
theorem C1_construct_succeeds_without_extension :
    AssetFile.new
      { canonicalize := fun p => some p, pathExists := fun _ => true,
        readFile := fun _ => none, writeOk := fun _ => false }
      "/base" "noext" =
    .ok { path := "/base/noext", file_name := "noext",
          file_stem := "noext", ext := none } := rfl

/-- C2, counterexample: the claim quantifies over any two `AssetFile`
instances with identical byte content, but the hashed destination name also
interpolates the file stem.  Two assets holding the same two bytes but with
stems "a" and "b" produce different destination names. -/
theorem C2_counterexample :
    (AssetFile.copy
        { canonicalize := fun _ => none, pathExists := fun _ => true,
          readFile := fun _ => some [104, 105], writeOk := fun _ => true }
        { path := "/x/a.css", file_name := "a.css", file_stem := "a",
          ext := some "css" }
        "/out" true = .ok "a-e83893ef0349020f.css" ∧
      AssetFile.copy
        { canonicalize := fun _ => none, pathExists := fun _ => true,
          readFile := fun _ => some [104, 105], writeOk := fun _ => true }
        { path := "/y/b.css", file_name := "b.css", file_stem := "b",
          ext := some "css" }
        "/out" true = .ok "b-e83893ef0349020f.css") ∧
    ("a-e83893ef0349020f.css" : String) ≠ "b-e83893ef0349020f.css" :=
  ⟨⟨rfl, rfl⟩, by decide⟩

/-- C2, amended: `copy` with hashing enabled is deterministic in the byte
content, the file stem and the extension — any two instances agreeing on
those three produce the identical destination name, independent of which
instance, call, filesystem state or target directory is involved. -/
theorem C2_copy_hash_deterministic
    (fs1 fs2 : FS) (af1 af2 : AssetFile) (d1 d2 : String) (bytes : List Nat)
    (h1 : fs1.readFile af1.path = some bytes)
    (h2 : fs2.readFile af2.path = some bytes)
    (hstem : af1.file_stem = af2.file_stem) (hext : af1.ext = af2.ext)
    (n1 n2 : String)
    (o1 : AssetFile.copy fs1 af1 d1 true = .ok n1)
    (o2 : AssetFile.copy fs2 af2 d2 true = .ok n2) :
    n1 = n2 := by
  have e1 : n1 = af1.file_stem ++ "-" ++ hexStr (seahash bytes) ++ "." ++
      af1.ext.getD "" := by
    simp only [AssetFile.copy, h1, if_true] at o1
    split at o1
    · injection o1 with hh
      exact hh.symm
    · exact Except.noConfusion o1
  have e2 : n2 = af2.file_stem ++ "-" ++ hexStr (seahash bytes) ++ "." ++
      af2.ext.getD "" := by
    simp only [AssetFile.copy, h2, if_true] at o2
    split at o2
    · injection o2 with hh
      exact hh.symm
    · exact Except.noConfusion o2
  rw [e1, e2, hstem, hext]

/-- C2 witness: two distinct instances over distinct filesystem states, same
stem, extension and bytes, yield the same name. -/
theorem C2_copy_hash_deterministic_witness :
    ("a-e83893ef0349020f.css" : String) = "a-e83893ef0349020f.css" :=
  C2_copy_hash_deterministic
    { canonicalize := fun _ => none, pathExists := fun _ => true,
      readFile := fun _ => some [104, 105], writeOk := fun _ => true }
    { canonicalize := fun _ => none, pathExists := fun _ => false,
      readFile := fun p => if p = "/y/a.css" then some [104, 105] else none,
      writeOk := fun _ => true }
    { path := "/x/a.css", file_name := "a.css", file_stem := "a",
      ext := some "css" }
    { path := "/y/a.css", file_name := "a.css", file_stem := "a",
      ext := some "css" }
    "/out" "/elsewhere" [104, 105] rfl rfl rfl rfl
    "a-e83893ef0349020f.css" "a-e83893ef0349020f.css" rfl rfl

/-- C3: whenever `copy` with hashing enabled succeeds on an asset carrying
an extension, the destination name is exactly the stem, a dash, the
lowercase hex digest of the bytes, a dot and the extension; and the digest
is a 64-bit value. -/
theorem C3_copy_hash_name_format
    (fs : FS) (af : AssetFile) (to_dir : String) (bytes : List Nat)
    (e : String)
    (hread : fs.readFile af.path = some bytes)
    (hext : af.ext = some e)
    (n : String)
    (hok : AssetFile.copy fs af to_dir true = .ok n) :
    n = af.file_stem ++ "-" ++ hexStr (seahash bytes) ++ "." ++ e ∧
      seahash bytes < 2 ^ 64 := by
  constructor
  · simp only [AssetFile.copy, hread, if_true] at hok
    split at hok
    · injection hok with hh
      rw [← hh, hext]
      rfl
    · exact Except.noConfusion hok
  · exact seahash_lt bytes

/-- C3 witness: the hashed copy of the bytes "hi" under stem "a" and
extension "css". -/
theorem C3_copy_hash_name_format_witness :
    ("a-e83893ef0349020f.css" : String) =
        "a" ++ "-" ++ hexStr (seahash [104, 105]) ++ "." ++ "css" ∧
      seahash [104, 105] < 2 ^ 64 :=
  C3_copy_hash_name_format
    { canonicalize := fun _ => none, pathExists := fun _ => true,
      readFile := fun _ => some [104, 105], writeOk := fun _ => true }
    { path := "/x/a.css", file_name := "a.css", file_stem := "a",
      ext := some "css" }
    "/out" [104, 105] "css" rfl rfl "a-e83893ef0349020f.css" rfl

/-- C4: whenever `copy` with hashing disabled succeeds, the returned
destination name is the original file name, unchanged, for every asset and
target directory. -/
theorem C4_copy_no_hash_original_name
    (fs : FS) (af : AssetFile) (to_dir : String) (n : String)
    (hok : AssetFile.copy fs af to_dir false = .ok n) :
    n = af.file_name := by
  cases hread : fs.readFile af.path with
  | none =>
    simp only [AssetFile.copy, hread] at hok
    exact Except.noConfusion hok
  | some bytes =>
    simp only [AssetFile.copy, hread, Bool.false_eq_true, if_false] at hok
    split at hok
    · injection hok with hh
      exact hh.symm
    · exact Except.noConfusion hok

/-- C4 witness: the unhashed copy keeps the name "a.css". -/
theorem C4_copy_no_hash_original_name_witness :
    ("a.css" : String) =
      (AssetFile.mk "/x/a.css" "a.css" "a" (some "css")).file_name :=
  C4_copy_no_hash_original_name
    { canonicalize := fun _ => none, pathExists := fun _ => true,
      readFile := fun _ => some [104, 105], writeOk := fun _ => true }
    (AssetFile.mk "/x/a.css" "a.css" "a" (some "css"))
    "/out" "a.css" rfl

end Trunk
